import Mathlib

/-!
Verification of the launcher dashboard (`src/dashboard.py`).

We shallowly embed the behaviourally relevant parts of the program:

* the persisted profile state (`profile/games_played`, `profile/level`,
  `profile/level_progress` in the settings store, kept in sync with the
  sidebar labels by the code),
* `DashboardWindow.launch_game_with_dependencies` (interpreter fallback,
  process spawn, counter/progress/promotion side effects, error dialog),
* `DashboardWindow.filter_games` and `GameFilterWidget.emit_filter_changed`
  (card visibility),
* the key-value settings store contract (`get`/`set`).

Python integers are embedded as `Int`, Python strings as `String` (or
`List Char` where character-level operations such as lowercasing and
substring search matter).
-/

/-- Persisted profile state relevant to launching.  The code stores these
under the keys `profile/games_played`, `profile/level` and
`profile/level_progress`, and mirrors level and progress into the sidebar
widgets (`level_label`, `progress_bar`), which `launch_game_with_dependencies`
reads and writes together with the settings. -/
structure ProfileState where
  gamesPlayed : Int
  level : String
  levelProgress : Int
deriving Repr, DecidableEq

/-- Environment of one launch call: whether the bundled-environment
interpreter exists on disk (`os.path.exists(venv_python)`), whether the
`subprocess.Popen` call raises, the exception text when it does, and the
running interpreter path (`sys.executable`). -/
structure LaunchEnv where
  venvExists : Bool
  spawnRaises : Bool
  spawnCause : String
  sysExecutable : String
deriving Repr, DecidableEq

/-- Observable outcome of one call to `launch_game_with_dependencies`:
the profile state afterwards, the interpreter handed to `Popen`, whether
the fallback warning was logged, whether the `Popen` call was reached,
the error dialog shown (message text and informative text), and whether
an exception escaped the method. -/
structure LaunchOutcome where
  state : ProfileState
  interpreter : String
  warningLogged : Bool
  spawnAttempted : Bool
  errorDialog : Option (String × String)
  propagated : Bool
deriving Repr, DecidableEq

/-- The bundled-environment interpreter path
`os.path.join(os.path.dirname(os.path.abspath(__file__)), "pdsa_env", "bin", "python")`. -/
def venvPythonPath (appRoot : String) : String :=
  appRoot ++ "/pdsa_env/bin/python"

/-- Embedding of `DashboardWindow.launch_game_with_dependencies`
(dashboard.py lines 1185-1234).  Inside the `try` block the code, in order:
increments `profile/games_played`; resolves the interpreter, falling back to
`sys.executable` with a logged warning when the bundled path is missing;
calls `subprocess.Popen`; and only after `Popen` returns updates
`profile/level_progress` to `min(100, progress + 5)` and, when the new
progress reaches 100 while the level reads `"Beginner"`, sets the level to
`"Intermediate"` and resets the progress to 0.  The `except` clause catches
the `Popen` exception and shows a critical dialog with text
`"Error launching " + game_name` and informative text `str(e)`.  `Popen` is
the one fallible step modelled; the settings reads/writes and
`os.path.exists` are total. -/
def launch_game_with_dependencies (env : LaunchEnv) (appRoot gameName : String)
    (s : ProfileState) : LaunchOutcome :=
  let s1 : ProfileState := { s with gamesPlayed := s.gamesPlayed + 1 }
  let interp : String :=
    if env.venvExists then venvPythonPath appRoot else env.sysExecutable
  let warned : Bool := !env.venvExists
  if env.spawnRaises then
    { state := s1
      interpreter := interp
      warningLogged := warned
      spawnAttempted := true
      errorDialog := some ("Error launching " ++ gameName, env.spawnCause)
      propagated := false }
  else
    let newProgress : Int := min 100 (s1.levelProgress + 5)
    let s2 : ProfileState := { s1 with levelProgress := newProgress }
    let s3 : ProfileState :=
      if newProgress ≥ 100 && s2.level == "Beginner" then
        { s2 with level := "Intermediate", levelProgress := 0 }
      else s2
    { state := s3
      interpreter := interp
      warningLogged := warned
      spawnAttempted := true
      errorDialog := none
      propagated := false }

/-- Final profile state after a sequence of launch calls, one environment
per call. -/
def runLaunches (appRoot gameName : String) (envs : List LaunchEnv)
    (s : ProfileState) : ProfileState :=
  envs.foldl (fun st env => (launch_game_with_dependencies env appRoot gameName st).state) s

/-- Example inputs used by counterexamples and witnesses. -/
def exState : ProfileState := { gamesPlayed := 7, level := "Beginner", levelProgress := 40 }

def exEnvRaise : LaunchEnv :=
  { venvExists := true, spawnRaises := true
    spawnCause := "No such file or directory", sysExecutable := "/usr/bin/python3" }

def exEnvOk : LaunchEnv :=
  { venvExists := true, spawnRaises := false
    spawnCause := "", sysExecutable := "/usr/bin/python3" }

def exEnvNoVenv : LaunchEnv :=
  { venvExists := false, spawnRaises := false
    spawnCause := "", sysExecutable := "/usr/bin/python3" }

/-- C1 counterexample: with a spawn call that raises, `games_played` is
nevertheless incremented by exactly 1 (the code increments it before the
`Popen` call), so "incremented by 1 if and only if the spawn call returns
without raising" is false at this input. -/
theorem gamesPlayed_iff_success_fails :
    ¬ (((launch_game_with_dependencies exEnvRaise "/app" "Tic Tac Toe" exState).state.gamesPlayed
          = exState.gamesPlayed + 1) ↔ exEnvRaise.spawnRaises = false) := by
  decide

/-- C1 (amended): every call to `launch_game_with_dependencies` increments
the persisted `games_played` counter by exactly 1, whether or not the spawn
call raises; in particular the counter never decreases. -/
theorem gamesPlayed_increments_per_launch (env : LaunchEnv) (appRoot gameName : String)
    (s : ProfileState) :
    (launch_game_with_dependencies env appRoot gameName s).state.gamesPlayed
        = s.gamesPlayed + 1
      ∧ s.gamesPlayed ≤ (launch_game_with_dependencies env appRoot gameName s).state.gamesPlayed := by
  unfold launch_game_with_dependencies
  by_cases h : env.spawnRaises
  · simp [h]
  · simp [h]
    split <;> simp

/-- Helper: one launch keeps `level_progress` in `[0, 100]`.  On a raising
spawn the progress is untouched; otherwise it becomes `min 100 (p + 5)` and
possibly 0 on promotion. -/
theorem launch_progress_bounds (env : LaunchEnv) (appRoot gameName : String)
    (s : ProfileState) (h0 : 0 ≤ s.levelProgress) (h1 : s.levelProgress ≤ 100) :
    0 ≤ (launch_game_with_dependencies env appRoot gameName s).state.levelProgress
      ∧ (launch_game_with_dependencies env appRoot gameName s).state.levelProgress ≤ 100 := by
  unfold launch_game_with_dependencies
  by_cases h : env.spawnRaises
  · simp [h]; omega
  · simp [h]
    split
    · simp
    · simp
      omega

/-- C2: starting from any `level_progress` in `[0, 100]`, the progress is
still in `[0, 100]` after any sequence of launches: the increment is clamped
at 100 by `min(100, progress + 5)` and the promotion branch resets it to 0. -/
theorem levelProgress_invariant (appRoot gameName : String) (envs : List LaunchEnv)
    (s : ProfileState) (h0 : 0 ≤ s.levelProgress) (h1 : s.levelProgress ≤ 100) :
    0 ≤ (runLaunches appRoot gameName envs s).levelProgress
      ∧ (runLaunches appRoot gameName envs s).levelProgress ≤ 100 := by
  induction envs generalizing s with
  | nil => exact ⟨h0, h1⟩
  | cons env rest ih =>
    have hstep := launch_progress_bounds env appRoot gameName s h0 h1
    exact ih _ hstep.1 hstep.2

/-- C2 witness: a concrete run of three launches (one of them failing)
starting from progress 98 stays in `[0, 100]`. -/
theorem levelProgress_invariant_witness :
    0 ≤ (runLaunches "/app" "Tower of Hanoi" [exEnvOk, exEnvRaise, exEnvOk]
          { gamesPlayed := 0, level := "Beginner", levelProgress := 98 }).levelProgress
      ∧ (runLaunches "/app" "Tower of Hanoi" [exEnvOk, exEnvRaise, exEnvOk]
          { gamesPlayed := 0, level := "Beginner", levelProgress := 98 }).levelProgress ≤ 100 :=
  levelProgress_invariant "/app" "Tower of Hanoi" [exEnvOk, exEnvRaise, exEnvOk]
    { gamesPlayed := 0, level := "Beginner", levelProgress := 98 } (by decide) (by decide)

/-- C3: from level `"Beginner"` and progress 98, one launch whose spawn call
does not raise yields level `"Intermediate"` and progress 0: the clamped
increment `min(100, 98 + 5) = 100` reaches 100 and triggers the promotion. -/
theorem beginner_98_promotes (env : LaunchEnv) (appRoot gameName : String)
    (s : ProfileState) (hlev : s.level = "Beginner") (hprog : s.levelProgress = 98)
    (hok : env.spawnRaises = false) :
    (launch_game_with_dependencies env appRoot gameName s).state.level = "Intermediate"
      ∧ (launch_game_with_dependencies env appRoot gameName s).state.levelProgress = 0 := by
  unfold launch_game_with_dependencies
  simp [hok, hlev, hprog]

/-- C3 witness: the promotion theorem applied at a concrete state and
environment. -/
theorem beginner_98_promotes_witness :
    (launch_game_with_dependencies exEnvOk "/app" "Eight Queens Puzzle"
        { gamesPlayed := 3, level := "Beginner", levelProgress := 98 }).state.level
        = "Intermediate"
      ∧ (launch_game_with_dependencies exEnvOk "/app" "Eight Queens Puzzle"
          { gamesPlayed := 3, level := "Beginner", levelProgress := 98 }).state.levelProgress
        = 0 :=
  beginner_98_promotes exEnvOk "/app" "Eight Queens Puzzle"
    { gamesPlayed := 3, level := "Beginner", levelProgress := 98 } rfl rfl rfl

/-- C4: when the bundled-environment interpreter is missing, the launch
falls back to `sys.executable`, logs a warning, still reaches the `Popen`
call with the fallback interpreter, and lets no exception escape. -/
theorem missing_venv_falls_back (env : LaunchEnv) (appRoot gameName : String)
    (s : ProfileState) (hmiss : env.venvExists = false) :
    (launch_game_with_dependencies env appRoot gameName s).interpreter = env.sysExecutable
      ∧ (launch_game_with_dependencies env appRoot gameName s).warningLogged = true
      ∧ (launch_game_with_dependencies env appRoot gameName s).spawnAttempted = true
      ∧ (launch_game_with_dependencies env appRoot gameName s).propagated = false := by
  unfold launch_game_with_dependencies
  by_cases h : env.spawnRaises <;> simp [h, hmiss]

/-- C4 witness: the fallback theorem applied at a concrete environment
without the bundled interpreter. -/
theorem missing_venv_falls_back_witness :
    (launch_game_with_dependencies exEnvNoVenv "/app" "Traveling Salesman" exState).interpreter
        = exEnvNoVenv.sysExecutable
      ∧ (launch_game_with_dependencies exEnvNoVenv "/app" "Traveling Salesman" exState).warningLogged
        = true
      ∧ (launch_game_with_dependencies exEnvNoVenv "/app" "Traveling Salesman" exState).spawnAttempted
        = true
      ∧ (launch_game_with_dependencies exEnvNoVenv "/app" "Traveling Salesman" exState).propagated
        = false :=
  missing_venv_falls_back exEnvNoVenv "/app" "Traveling Salesman" exState rfl

/-- C5: when the spawn call raises, the exception is caught inside the
method (nothing propagates) and a critical dialog is shown whose text
contains the game name (`"Error launching " + game_name`) and whose
informative text is the exception string. -/
theorem spawn_failure_reported (env : LaunchEnv) (appRoot gameName : String)
    (s : ProfileState) (hraise : env.spawnRaises = true) :
    (launch_game_with_dependencies env appRoot gameName s).propagated = false
      ∧ (launch_game_with_dependencies env appRoot gameName s).errorDialog
        = some ("Error launching " ++ gameName, env.spawnCause) := by
  unfold launch_game_with_dependencies
  simp [hraise]

/-- C5 witness: the error-reporting theorem applied at a concrete raising
environment. -/
theorem spawn_failure_reported_witness :
    (launch_game_with_dependencies exEnvRaise "/app" "Tic Tac Toe" exState).propagated = false
      ∧ (launch_game_with_dependencies exEnvRaise "/app" "Tic Tac Toe" exState).errorDialog
        = some ("Error launching " ++ "Tic Tac Toe", exEnvRaise.spawnCause) :=
  spawn_failure_reported exEnvRaise "/app" "Tic Tac Toe" exState rfl

/-- C9: a launch whose spawn call raises leaves the persisted level and
level progress unchanged: the progress increment, clamp and promotion are
all placed after the `Popen` call and are skipped by the jump to `except`. -/
theorem failed_spawn_preserves_progress (env : LaunchEnv) (appRoot gameName : String)
    (s : ProfileState) (hraise : env.spawnRaises = true) :
    (launch_game_with_dependencies env appRoot gameName s).state.level = s.level
      ∧ (launch_game_with_dependencies env appRoot gameName s).state.levelProgress
        = s.levelProgress := by
  unfold launch_game_with_dependencies
  simp [hraise]

/-- C9 witness: the preservation theorem applied at a concrete raising
environment. -/
theorem failed_spawn_preserves_progress_witness :
    (launch_game_with_dependencies exEnvRaise "/app" "Knight" exState).state.level = exState.level
      ∧ (launch_game_with_dependencies exEnvRaise "/app" "Knight" exState).state.levelProgress
        = exState.levelProgress :=
  failed_spawn_preserves_progress exEnvRaise "/app" "Knight" exState rfl

/-- Helper: one launch never changes a level other than `"Beginner"`: the
only write to the level is in the promotion branch, guarded by the current
level reading `"Beginner"`. -/
theorem launch_level_frozen (env : LaunchEnv) (appRoot gameName : String)
    (s : ProfileState) (hne : s.level ≠ "Beginner") :
    (launch_game_with_dependencies env appRoot gameName s).state.level = s.level := by
  unfold launch_game_with_dependencies
  by_cases h : env.spawnRaises
  · simp [h]
  · simp [h]
    split
    · rename_i hcond
      exact absurd hcond.2 hne
    · rfl

/-- C10: starting from any level other than `"Beginner"`, any sequence of
launches leaves the persisted level unchanged. -/
theorem nonBeginner_level_unchanged (appRoot gameName : String) (envs : List LaunchEnv)
    (s : ProfileState) (hne : s.level ≠ "Beginner") :
    (runLaunches appRoot gameName envs s).level = s.level := by
  induction envs generalizing s with
  | nil => rfl
  | cons env rest ih =>
    have hstep := launch_level_frozen env appRoot gameName s hne
    have := ih ((launch_game_with_dependencies env appRoot gameName s).state)
      (by rw [hstep]; exact hne)
    simpa [runLaunches, hstep] using this

/-- C10 witness: a concrete Advanced-level profile keeps its level over a
concrete sequence of launches. -/
theorem nonBeginner_level_unchanged_witness :
    (runLaunches "/app" "Tower of Hanoi" [exEnvOk, exEnvOk, exEnvRaise, exEnvOk]
        { gamesPlayed := 2, level := "Advanced", levelProgress := 95 }).level = "Advanced" :=
  nonBeginner_level_unchanged "/app" "Tower of Hanoi" [exEnvOk, exEnvOk, exEnvRaise, exEnvOk]
    { gamesPlayed := 2, level := "Advanced", levelProgress := 95 } (by decide)

/-- Modelled from the spec: the persisted key-value store behind `SETTINGS =
QSettings("PdsaGamesPortal", "Dashboard")` is library code outside this
repository; only its call sites (`load_profile`, `save_profile`, the launch
method) are in `src/`.  Following the spec, the store is a durable mapping of
string keys to values: the state is the list of performed `set` operations,
most recent first. -/
abbrev ProfileStore := List (String × String)

/-- Modelled from the spec: `set(key, value)` records the value for the key,
overriding earlier writes. -/
def ProfileStore.set (st : ProfileStore) (key value : String) : ProfileStore :=
  (key, value) :: st

/-- Modelled from the spec: `get(key, default)` returns the value of the
most recent `set` for the key, or the default when the key was never set. -/
def ProfileStore.get (st : ProfileStore) (key dflt : String) : String :=
  match st with
  | [] => dflt
  | (k, v) :: rest => if k == key then v else ProfileStore.get rest key dflt

/-- The store obtained by performing a list of `set` operations, in order,
starting from the empty store. -/
def applySets (ops : List (String × String)) : ProfileStore :=
  ops.foldl (fun st kv => st.set kv.1 kv.2) []

/-- Whether the store's history records any `set` for the key. -/
def wasSet (st : ProfileStore) (key : String) : Bool :=
  st.any (fun kv => kv.1 == key)

/-- The value of the most recent `set` for the key in a list of operations
(later list entries are later operations), if any. -/
def lastSetValue (ops : List (String × String)) (key : String) : Option String :=
  match ops with
  | [] => none
  | (k, v) :: rest =>
    match lastSetValue rest key with
    | some w => some w
    | none => if k == key then some v else none

/-- Helper: running `set` operations from any starting store, `get` returns
the most recent matching operation, or falls through to the starting store. -/
theorem get_foldl_set (ops : List (String × String)) (key dflt : String)
    (st : ProfileStore) :
    ProfileStore.get (ops.foldl (fun st kv => st.set kv.1 kv.2) st) key dflt
      = (lastSetValue ops key).getD (ProfileStore.get st key dflt) := by
  induction ops generalizing st with
  | nil => rfl
  | cons kv rest ih =>
    simp only [List.foldl_cons, lastSetValue]
    rw [ih]
    cases hlast : lastSetValue rest key with
    | some w => simp
    | none =>
      simp only [Option.getD]
      by_cases hk : kv.1 == key <;> simp [hk, ProfileStore.set, ProfileStore.get]

/-- C6 counterexample: after `set("profile/name", "Guest User")`, the call
`get("profile/name", "Guest User")` returns the default string even though a
`set` was performed for the key, so "returns default exactly when no set has
ever been performed for that key" is false at this input. -/
theorem get_default_iff_unset_fails :
    ¬ ((ProfileStore.get (applySets [("profile/name", "Guest User")])
          "profile/name" "Guest User" = "Guest User")
        ↔ wasSet (applySets [("profile/name", "Guest User")]) "profile/name" = false) := by
  decide

/-- Helper: running `set` operations from any starting store, a `set` for
the key is on record exactly when one of the operations or the starting
store mentions the key. -/
theorem wasSet_foldl (ops : List (String × String)) (key : String) (st : ProfileStore) :
    wasSet (ops.foldl (fun st kv => st.set kv.1 kv.2) st) key
      = (ops.any (fun kv => kv.1 == key) || wasSet st key) := by
  induction ops generalizing st with
  | nil => simp
  | cons kv rest ih =>
    simp only [List.foldl_cons, List.any_cons]
    rw [ih]
    simp only [wasSet, ProfileStore.set, List.any_cons]
    cases kv.1 == key <;> cases rest.any (fun kv => kv.1 == key) <;> simp

/-- Helper: the most recent set value for a key is absent exactly when no
operation in the history targets the key. -/
theorem lastSetValue_eq_none (ops : List (String × String)) (key : String) :
    lastSetValue ops key = none ↔ ops.any (fun kv => kv.1 == key) = false := by
  induction ops with
  | nil => simp [lastSetValue]
  | cons kv rest ih =>
    simp only [lastSetValue, List.any_cons]
    cases hlast : lastSetValue rest key with
    | some w =>
      simp only [hlast] at ih
      by_cases hk : kv.1 == key <;> simp [hk, ← ih, hlast]
    | none =>
      simp only [hlast] at ih
      by_cases hk : kv.1 == key <;> simp [hk, ← ih]

/-- C6 (amended): over any history of `set` operations, `get(key, default)`
returns the value of the most recent `set` for the key when one was
performed, and the default when the key was never set; a returned default no
longer implies the key was never set, since the most recent set value may
itself equal the default. -/
theorem get_roundtrip (ops : List (String × String)) (key dflt : String) :
    ProfileStore.get (applySets ops) key dflt = (lastSetValue ops key).getD dflt
      ∧ (lastSetValue ops key = none ↔ wasSet (applySets ops) key = false) := by
  constructor
  · have h := get_foldl_set ops key dflt []
    simpa [applySets, ProfileStore.get] using h
  · have h := wasSet_foldl ops key []
    simp only [applySets] at h ⊢
    rw [h]
    simp [wasSet, lastSetValue_eq_none]

/-- Python `str.lower()` on the card and search strings; the strings in the
dashboard are ASCII, matching `Char.toLower`. -/
def lowerStr (s : List Char) : List Char := s.map Char.toLower

/-- Whether `pat` is a prefix of `hay`, character by character. -/
def hasPrefixL : List Char → List Char → Bool
  | [], _ => true
  | _ :: _, [] => false
  | a :: pat, b :: hay => a == b && hasPrefixL pat hay

/-- Python substring containment `pat in hay`: `pat` occurs contiguously in
`hay` (the empty pattern occurs in every string). -/
def containsSub (hay pat : List Char) : Bool :=
  match hay with
  | [] => pat.isEmpty
  | _ :: rest => hasPrefixL pat hay || containsSub rest pat

/-- A game card as used by `filter_games`: the `gameTitle` label text, the
`gameDescription` label text, and the `category` and `difficulty` widget
properties.  Both labels are always created by the `GameCard` constructor,
so `findChild` finds them and the empty-string fallback branches of
`filter_games` are dead for these cards. -/
structure GameCardM where
  title : List Char
  description : List Char
  category : List Char
  difficulty : List Char
deriving Repr, DecidableEq

/-- The apostrophe character, used in one card title. -/
def apostropheChar : Char := Char.ofNat 39

/-- The five cards built by `DashboardWindow.create_game_cards`
(dashboard.py lines 1081-1150). -/
def eight_queens_card : GameCardM :=
  { title := "Eight Queens Puzzle".data
    description := "Place eight queens on a chessboard so that no queen can attack another queen.".data
    category := "Board Games".data
    difficulty := "Medium".data }

def knights_tour_card : GameCardM :=
  { title := "Knight".data ++ [apostropheChar] ++ "s Tour".data
    description := "Find a sequence of moves for a knight to visit every square on a chessboard exactly once.".data
    category := "Pathfinding".data
    difficulty := "Hard".data }

def tic_tac_toe_card : GameCardM :=
  { title := "Tic Tac Toe".data
    description := "Classic game with AI opponents using Minimax and Alpha-Beta pruning algorithms.".data
    category := "Board Games".data
    difficulty := "Easy".data }

def tower_of_hanoi_card : GameCardM :=
  { title := "Tower of Hanoi".data
    description := "Move disks from one rod to another following specific rules.".data
    category := "Optimization".data
    difficulty := "Medium".data }

def traveling_salesman_card : GameCardM :=
  { title := "Traveling Salesman".data
    description := "Find the shortest route to visit all cities and return to the starting point.".data
    category := "Optimization".data
    difficulty := "Hard".data }

/-- `self.game_cards`, in layout order. -/
def game_cards : List GameCardM :=
  [eight_queens_card, knights_tour_card, tic_tac_toe_card,
   tower_of_hanoi_card, traveling_salesman_card]

/-- Visibility of one card as computed by the body of
`DashboardWindow.filter_games` (dashboard.py lines 1152-1179): the search
text is lowercased once; the title and description label texts are
lowercased; the card is shown when the category matches (`"All"` or equal to
the card's property) and the lowered search text is empty or occurs in the
lowered title or lowered description. -/
def card_visible (search_text category : List Char) (card : GameCardM) : Bool :=
  let searchL := lowerStr search_text
  let title := lowerStr card.title
  let desc := lowerStr card.description
  let category_match := category == "All".data || card.category == category
  let text_match := searchL.isEmpty || containsSub title searchL || containsSub desc searchL
  category_match && text_match

/-- `DashboardWindow.filter_games` as a visibility table over
`self.game_cards`. -/
def filter_games (search_text category : List Char) : List Bool :=
  game_cards.map (card_visible search_text category)

/-- The spec's visibility condition, written from the spec's words: a card
is visible iff (category is `"All"` or the card's category equals the
selected category) and (the search string is empty or is a case-insensitive
substring of the title or of the description). -/
def specCardVisible (search category : List Char) (card : GameCardM) : Prop :=
  (category = "All".data ∨ card.category = category)
    ∧ (search = []
        ∨ containsSub (lowerStr card.title) (lowerStr search) = true
        ∨ containsSub (lowerStr card.description) (lowerStr search) = true)

/-- C7: for each of the five game cards, the visibility computed by
`filter_games` agrees with the spec's condition, for every search text and
category. -/
theorem filter_visibility_spec (search category : List Char) (card : GameCardM)
    (_hmem : card ∈ game_cards) :
    card_visible search category card = true ↔ specCardVisible search category card := by
  unfold card_visible specCardVisible
  simp [lowerStr, List.isEmpty_iff, List.map_eq_nil_iff]
  tauto

/-- C7 witness: the agreement theorem applied to the Eight Queens card with
a concrete search text and category. -/
theorem filter_visibility_spec_witness :
    card_visible "queen".data "All".data eight_queens_card = true
      ↔ specCardVisible "queen".data "All".data eight_queens_card :=
  filter_visibility_spec "queen".data "All".data eight_queens_card (by simp [game_cards])

/-- `GameFilterWidget.emit_filter_changed` (dashboard.py lines 777-786):
reads the category, difficulty and search text, but the emitted signal
carries only the search text and the category. -/
def emit_filter_changed (category _difficulty search_text : List Char) :
    List Char × List Char :=
  let filter_text := search_text
  (filter_text, category)

/-- The filtering pipeline: widget state flows through
`emit_filter_changed` into `filter_games`. -/
def pipeline_visibility (category difficulty search_text : List Char) : List Bool :=
  let sig := emit_filter_changed category difficulty search_text
  filter_games sig.1 sig.2

/-- C8: the selected difficulty does not influence card visibility: two runs
of the pipeline that differ only in the difficulty produce the same
visibility for every card, because the emitted filter signal carries only
the search text and the category and `filter_games` never reads the
difficulty. -/
theorem difficulty_noninterference (category search_text d1 d2 : List Char) :
    pipeline_visibility category d1 search_text
      = pipeline_visibility category d2 search_text := rfl
